import Mathlib

/-!
Verification of the particle-hand-tracker core: a shallow embedding of the
gesture classifier (`src/services/GestureRecognizer.ts`,
`src/hooks/useGestureDetection.ts`), the particle morph engine
(`src/hooks/useParticleSystem.ts` and the monolithic page component), the
interpolation utilities, the throttle hook (`src/hooks/useThrottle.ts`) and
the sphere shape generator (`src/utils/geometry/shapeGenerators.ts`).

JS numbers are modelled as rationals (the classifier and the morph engine only
add, subtract, multiply and compare); the sphere generator's trigonometry is
modelled over the reals.  A JS array is a `List`; out-of-range element reads
yield `Option.none` (JS `undefined`), and a computation that would dereference
`undefined` (a thrown `TypeError`) is an `Option.none` result.
-/

/-- A MediaPipe hand landmark: normalized x, y and relative z. -/
structure Landmark where
  x : ℚ
  y : ℚ
  z : ℚ
deriving DecidableEq, Repr

instance : Inhabited Landmark := ⟨⟨0, 0, 0⟩⟩

/-- `HandLandmarks` from `types/mediapipe`: an array of landmark points. -/
abbrev HandLandmarks := List Landmark

/-- `FingerState` from `types/shapes`: one raised-flag per finger. -/
structure FingerState where
  thumb : Bool
  index : Bool
  middle : Bool
  ring : Bool
  pinky : Bool
deriving DecidableEq, Repr

/-- `GestureResult` from `types/shapes`: gesture name plus confidence. -/
structure GestureResult where
  name : String
  confidence : ℚ
deriving DecidableEq, Repr

/-- `GestureRecognizer.isFingerUp`: `landmarks[tipIdx].y < landmarks[pipIdx].y`.
`none` models the `TypeError` thrown when an index is out of range
(`undefined.y`). -/
def isFingerUp (landmarks : HandLandmarks) (tipIdx pipIdx : ℕ) : Option Bool :=
  match landmarks.get? tipIdx, landmarks.get? pipIdx with
  | some tip, some pip => some (decide (tip.y < pip.y))
  | _, _ => none

/-- `GestureRecognizer.isThumbUp`: thumb tip y (index 4) against index-finger
MCP y (index 5). -/
def isThumbUp (landmarks : HandLandmarks) : Option Bool :=
  match landmarks.get? 4, landmarks.get? 5 with
  | some tip, some mcp => some (decide (tip.y < mcp.y))
  | _, _ => none

/-- `GestureRecognizer.getFingerState`: the five raised flags, using the
landmark indices of `LANDMARK_INDICES` (tip/PIP pairs 8/6, 12/10, 16/14,
20/18). `none` models a thrown landmark access. -/
def getFingerState (landmarks : HandLandmarks) : Option FingerState :=
  match isThumbUp landmarks, isFingerUp landmarks 8 6, isFingerUp landmarks 12 10,
      isFingerUp landmarks 16 14, isFingerUp landmarks 20 18 with
  | some t, some i, some m, some r, some p => some ⟨t, i, m, r, p⟩
  | _, _, _, _, _ => none

/-- `GestureRecognizer.countRaisedFingers` on an already computed state:
thumb excluded. -/
def countRaisedFingers (s : FingerState) : ℕ :=
  (if s.index then 1 else 0) + (if s.middle then 1 else 0) +
    (if s.ring then 1 else 0) + (if s.pinky then 1 else 0)

/-- `GESTURE_CONFIG.OPEN_PALM_FINGER_COUNT` from `config/constants.ts`. -/
def OPEN_PALM_FINGER_COUNT : ℕ := 4

/-- The decision chain of `GestureRecognizer.recognizeGesture`, as a function
of the computed finger state (the source recomputes the state for the count;
the recomputation is pure and yields the same state). -/
def recognizeFromState (s : FingerState) : GestureResult :=
  let fingersUpCount := countRaisedFingers s
  if s.thumb ∧ fingersUpCount = 0 then ⟨"thumbs-up", 1⟩
  else if s.index ∧ ¬s.middle ∧ ¬s.ring ∧ ¬s.pinky then ⟨"index", 1⟩
  else if s.index ∧ s.middle ∧ ¬s.ring ∧ ¬s.pinky then ⟨"peace", 1⟩
  else if s.index ∧ s.middle ∧ s.ring ∧ ¬s.pinky then ⟨"three-fingers", 1⟩
  else if OPEN_PALM_FINGER_COUNT ≤ fingersUpCount then ⟨"open-palm", 1⟩
  else if fingersUpCount = 0 then ⟨"fist", 1⟩
  else ⟨"none", 0⟩

/-- `GestureRecognizer.recognizeGesture`: `none` models a thrown landmark
access inside `getFingerState`. -/
def recognizeGesture (landmarks : HandLandmarks) : Option GestureResult :=
  (getFingerState landmarks).map recognizeFromState

/-- The gesture computation of `useGestureDetection` (the `useMemo` body):
`null` or empty landmark arrays short-circuit to `{none, 0}`, any other array
is classified by `GestureRecognizer.recognizeGesture`.  The outer `Option` is
the `landmarks : HandLandmarks | null` parameter; a `none` result models a
thrown landmark access. -/
def detectGesture (landmarks : Option HandLandmarks) : Option GestureResult :=
  match landmarks with
  | none => some ⟨"none", 0⟩
  | some l => if l.length = 0 then some ⟨"none", 0⟩ else recognizeGesture l

/-- The decision order exactly as the claim states it, as a function of the
five raised flags (spec-side definition, written from the claim's words): (1)
thumbs-up, (2) index, (3) peace, (4) three-fingers, (5) open-palm at ≥ 4
raised non-thumb fingers, (6) fist at zero raised, (7) none with
confidence 0. -/
def claimGesture (thumb index middle ring pinky : Bool) : GestureResult :=
  let raisedCount : ℕ := (if index then 1 else 0) + (if middle then 1 else 0) +
    (if ring then 1 else 0) + (if pinky then 1 else 0)
  if thumb ∧ ¬index ∧ ¬middle ∧ ¬ring ∧ ¬pinky then ⟨"thumbs-up", 1⟩
  else if index ∧ ¬middle ∧ ¬ring ∧ ¬pinky then ⟨"index", 1⟩
  else if index ∧ middle ∧ ¬ring ∧ ¬pinky then ⟨"peace", 1⟩
  else if index ∧ middle ∧ ring ∧ ¬pinky then ⟨"three-fingers", 1⟩
  else if 4 ≤ raisedCount then ⟨"open-palm", 1⟩
  else if raisedCount = 0 then ⟨"fist", 1⟩
  else ⟨"none", 0⟩

/-- The claim's per-finger raised test on a length-21 frame: tip y < PIP y,
read by plain index. -/
def raisedAt (landmarks : HandLandmarks) (tipIdx pipIdx : ℕ) : Bool :=
  decide ((landmarks.getD tipIdx default).y < (landmarks.getD pipIdx default).y)

lemma get?_eq_some_getD (l : List Landmark) (n : ℕ) (h : n < l.length) :
    l.get? n = some (l.getD n default) := by
  cases hx : l.get? n with
  | none => exact absurd (List.get?_eq_none.mp hx) (by omega)
  | some a =>
    rw [List.getD_eq_getElem?_getD, ← List.get?_eq_getElem?, hx]
    rfl

lemma recognizeFromState_eq_claimGesture (a b c d e : Bool) :
    recognizeFromState ⟨a, b, c, d, e⟩ = claimGesture a b c d e := by
  cases a <;> cases b <;> cases c <;> cases d <;> cases e <;> rfl

example : detectGesture (some (List.replicate 21 ⟨0, 0, 0⟩)) = some ⟨"fist", 1⟩ := by decide

example : detectGesture (some [⟨0, 0, 0⟩]) = none := by decide

lemma getFingerState_eq_none_of_short (l : HandLandmarks) (h : l.length < 21) :
    getFingerState l = none := by
  have h20 : l.get? 20 = none := List.get?_eq_none.mpr (by omega)
  have hp : isFingerUp l 20 18 = none := by
    unfold isFingerUp
    rw [h20]
  cases h1 : isThumbUp l <;> cases h2 : isFingerUp l 8 6 <;>
    cases h3 : isFingerUp l 12 10 <;> cases h4 : isFingerUp l 16 14 <;>
    simp [getFingerState, h1, h2, h3, h4, hp]

/-- C1 counterexample: a one-point frame (wrong point count, nonzero) is not
classified as `{none, 0}`: the recognizer dereferences a missing landmark
(a thrown access, modelled as `none`). -/
theorem C1_counterexample :
    detectGesture (some [⟨0, 0, 0⟩]) ≠ some ⟨"none", 0⟩ := by decide

/-- C1 (amended): `useGestureDetection` classifies an absent or empty frame as
`{none, 0}` without touching any landmark, but the guard checks only
`length === 0`: a frame whose length is between 1 and 20 is passed to the
recognizer, which dereferences a missing landmark (a thrown access, `none`)
instead of returning `{none, 0}`. -/
theorem C1_detectGesture_guard :
    detectGesture none = some ⟨"none", 0⟩ ∧
    detectGesture (some []) = some ⟨"none", 0⟩ ∧
    ∀ l : HandLandmarks, 0 < l.length → l.length < 21 →
      detectGesture (some l) = none := by
  refine ⟨rfl, rfl, ?_⟩
  intro l h0 h21
  have hfs := getFingerState_eq_none_of_short l h21
  show (if l.length = 0 then some ⟨"none", 0⟩ else recognizeGesture l) = none
  rw [if_neg (by omega)]
  unfold recognizeGesture
  rw [hfs]
  rfl

/-- C1 witness: the amended theorem applied to the concrete one-point frame. -/
theorem C1_witness :
    0 < ([(⟨0, 0, 0⟩ : Landmark)] : HandLandmarks).length ∧
    ([(⟨0, 0, 0⟩ : Landmark)] : HandLandmarks).length < 21 ∧
    detectGesture (some [⟨0, 0, 0⟩]) = none :=
  ⟨by decide, by decide,
    C1_detectGesture_guard.2.2 [⟨0, 0, 0⟩] (by decide) (by decide)⟩

/-- C2: on every 21-landmark hand, `recognizeGesture` implements exactly the
claimed decision order with first match winning, with raised = tip y < PIP y,
thumbs-up gated on thumb-tip y < index-MCP y, and confidence 1 everywhere
except the `none` fallback (confidence 0), as spelled out by `claimGesture`. -/
theorem C2_recognizeGesture_decision_order (l : HandLandmarks) (h : l.length = 21) :
    recognizeGesture l =
      some (claimGesture (decide ((l.getD 4 default).y < (l.getD 5 default).y))
        (raisedAt l 8 6) (raisedAt l 12 10) (raisedAt l 16 14) (raisedAt l 20 18)) := by
  have g4 := get?_eq_some_getD l 4 (by omega)
  have g5 := get?_eq_some_getD l 5 (by omega)
  have g6 := get?_eq_some_getD l 6 (by omega)
  have g8 := get?_eq_some_getD l 8 (by omega)
  have g10 := get?_eq_some_getD l 10 (by omega)
  have g12 := get?_eq_some_getD l 12 (by omega)
  have g14 := get?_eq_some_getD l 14 (by omega)
  have g16 := get?_eq_some_getD l 16 (by omega)
  have g18 := get?_eq_some_getD l 18 (by omega)
  have g20 := get?_eq_some_getD l 20 (by omega)
  unfold recognizeGesture getFingerState isThumbUp isFingerUp
  rw [g4, g5, g6, g8, g10, g12, g14, g16, g18, g20]
  simp only [Option.map_some']
  rw [recognizeFromState_eq_claimGesture]
  rfl

/-- C2 witness: the theorem at a concrete 21-point frame (all landmarks equal:
no finger raised, hence the fist case of the claimed decision order). -/
theorem C2_witness :
    (List.replicate 21 (⟨0, 0, 0⟩ : Landmark)).length = 21 ∧
    recognizeGesture (List.replicate 21 ⟨0, 0, 0⟩) =
      some (claimGesture
        (decide (((List.replicate 21 (⟨0, 0, 0⟩ : Landmark)).getD 4 default).y <
          ((List.replicate 21 (⟨0, 0, 0⟩ : Landmark)).getD 5 default).y))
        (raisedAt (List.replicate 21 ⟨0, 0, 0⟩) 8 6)
        (raisedAt (List.replicate 21 ⟨0, 0, 0⟩) 12 10)
        (raisedAt (List.replicate 21 ⟨0, 0, 0⟩) 16 14)
        (raisedAt (List.replicate 21 ⟨0, 0, 0⟩) 20 18)) :=
  ⟨by decide, C2_recognizeGesture_decision_order (List.replicate 21 ⟨0, 0, 0⟩) (by decide)⟩

lemma isFingerUp_congr (l1 l2 : HandLandmarks)
    (h : l1.map Landmark.y = l2.map Landmark.y) (t p : ℕ) :
    isFingerUp l1 t p = isFingerUp l2 t p := by
  have key : ∀ n, (l1.get? n).map Landmark.y = (l2.get? n).map Landmark.y := by
    intro n
    rw [← List.get?_map, ← List.get?_map, h]
  have kt := key t
  have kp := key p
  unfold isFingerUp
  cases h1 : l1.get? t <;> cases h2 : l2.get? t <;> rw [h1, h2] at kt <;>
    cases h3 : l1.get? p <;> cases h4 : l2.get? p <;> rw [h3, h4] at kp <;>
    simp_all

lemma isThumbUp_eq_isFingerUp (l : HandLandmarks) : isThumbUp l = isFingerUp l 4 5 := rfl

/-- C10: classification is independent of all x and z coordinates — two
21-landmark frames agreeing on every landmark's y coordinate produce the same
finger state and the same gesture result. -/
theorem C10_y_noninterference (l1 l2 : HandLandmarks)
    (_h1 : l1.length = 21) (_h2 : l2.length = 21)
    (hy : l1.map Landmark.y = l2.map Landmark.y) :
    getFingerState l1 = getFingerState l2 ∧ recognizeGesture l1 = recognizeGesture l2 := by
  have e1 : isThumbUp l1 = isThumbUp l2 := by
    rw [isThumbUp_eq_isFingerUp, isThumbUp_eq_isFingerUp]
    exact isFingerUp_congr l1 l2 hy 4 5
  have e2 := isFingerUp_congr l1 l2 hy 8 6
  have e3 := isFingerUp_congr l1 l2 hy 12 10
  have e4 := isFingerUp_congr l1 l2 hy 16 14
  have e5 := isFingerUp_congr l1 l2 hy 20 18
  have hfs : getFingerState l1 = getFingerState l2 := by
    unfold getFingerState
    rw [e1, e2, e3, e4, e5]
  exact ⟨hfs, by unfold recognizeGesture; rw [hfs]⟩

/-- C10 witness: two concrete 21-point frames with equal y but different x and
z coordinates classify identically. -/
theorem C10_witness :
    (List.replicate 21 (⟨0, 0, 0⟩ : Landmark)).length = 21 ∧
    (List.replicate 21 (⟨7, 0, 3⟩ : Landmark)).length = 21 ∧
    (List.replicate 21 (⟨0, 0, 0⟩ : Landmark)).map Landmark.y =
      (List.replicate 21 (⟨7, 0, 3⟩ : Landmark)).map Landmark.y ∧
    (getFingerState (List.replicate 21 ⟨0, 0, 0⟩) =
        getFingerState (List.replicate 21 ⟨7, 0, 3⟩) ∧
      recognizeGesture (List.replicate 21 ⟨0, 0, 0⟩) =
        recognizeGesture (List.replicate 21 ⟨7, 0, 3⟩)) :=
  ⟨by decide, by decide, by decide,
    C10_y_noninterference (List.replicate 21 ⟨0, 0, 0⟩) (List.replicate 21 ⟨7, 0, 3⟩)
      (by decide) (by decide) (by decide)⟩

/-! ## Particle morph engine

`useParticleSystem.ts` (`updateTargetShape`, `startAnimation`) and the
monolithic page component (`setTargetShape`, `animate`).  `Math.random()` is
modelled as an externally supplied stream `ℕ → ℚ` of draws together with a
cursor counting how many draws have been consumed; a shape store is a partial
map from shape keys to point lists (`none` = key absent, i.e. JS
`undefined`).  A stored particle target is an `Option (Vec3 ℚ)`:
`newTargets[i % newTargets.length]` is `undefined` (`none`) exactly when
`newTargets` is empty. -/

/-- `THREE.Vec3`, restricted to the three coordinates the code uses. -/
structure Vec3 (α : Type) where
  x : α
  y : α
  z : α
deriving DecidableEq

instance {α : Type} [Inhabited α] : Inhabited (Vec3 α) := ⟨⟨default, default, default⟩⟩

/-- `THREE.Color`: an RGB triple. -/
structure Color where
  r : ℚ
  g : ℚ
  b : ℚ
deriving DecidableEq

instance : Inhabited Color := ⟨⟨0, 0, 0⟩⟩

/-- `PARTICLE_CONFIG.COUNT` from `config/constants.ts`. -/
def PARTICLE_COUNT : ℕ := 10000

/-- `SHAPE_CONFIG.SCATTER_RANGE` from `config/constants.ts`. -/
def SCATTER_RANGE : ℚ := 300

/-- `getScatterCoordinates(count)`: each coordinate is
`(Math.random() - 0.5) * range`; the three draws of point `i` are the stream
entries `k + 3i`, `k + 3i + 1`, `k + 3i + 2`, where `k` is the number of draws
consumed before the call. -/
def getScatterCoordinates (count : ℕ) (stream : ℕ → ℚ) (k : ℕ) : List (Vec3 ℚ) :=
  (List.range count).map (fun i =>
    ⟨(stream (k + 3 * i) - 1 / 2) * SCATTER_RANGE,
     (stream (k + 3 * i + 1) - 1 / 2) * SCATTER_RANGE,
     (stream (k + 3 * i + 2) - 1 / 2) * SCATTER_RANGE⟩)

/-- `SHAPE_COLORS` from `config/constants.ts` (`none` = key absent). -/
def shapeColors (shapeKey : String) : Option Color :=
  if shapeKey = "sphere" then some ⟨1, 3/5, 0⟩
  else if shapeKey = "hello" then some ⟨0, 1, 1⟩
  else if shapeKey = "gemini" then some ⟨1, 0, 1⟩
  else if shapeKey = "sinhala-great" then some ⟨0, 1, 1/2⟩
  else if shapeKey = "sinhala-hello" then some ⟨1/2, 0, 1⟩
  else if shapeKey = "scatter" then some ⟨1, 1/5, 1/5⟩
  else none

/-- The mutable state touched by a shape switch: the active shape, the two
target arrays, and the random-draw cursor. -/
structure MorphState where
  currentShape : String
  targetPositions : List (Option (Vec3 ℚ))
  targetColors : List Color
  rand : ℕ

/-- The `newTargets` local of `updateTargetShape` / `setTargetShape`:
`shapes[shapeKey] || shapes.sphere` (JS `||` falls back only on `undefined`;
a present empty array is truthy and is kept), then a fresh scatter cloud when
the key is `scatter`. -/
def newTargetsOf (shapes : String → Option (List (Vec3 ℚ))) (stream : ℕ → ℚ)
    (k : ℕ) (shapeKey : String) : List (Vec3 ℚ) :=
  let base := (shapes shapeKey).getD ((shapes "sphere").getD [])
  if shapeKey = "scatter" then getScatterCoordinates PARTICLE_COUNT stream k else base

/-- The target-rebuild loop:
`for i < COUNT: push(newTargets[i % newTargets.length])`. -/
def buildTargets (newTargets : List (Vec3 ℚ)) : List (Option (Vec3 ℚ)) :=
  (List.range PARTICLE_COUNT).map (fun i => newTargets.get? (i % newTargets.length))

/-- `updateTargetShape` of `useParticleSystem.ts`: unconditionally sets the
current shape, recomputes `newTargets` (regenerating scatter), and rebuilds
both target arrays.  There is no same-key guard in this version. -/
def updateTargetShape (shapes : String → Option (List (Vec3 ℚ))) (stream : ℕ → ℚ)
    (st : MorphState) (shapeKey : String) : MorphState :=
  { currentShape := shapeKey
    targetPositions := buildTargets (newTargetsOf shapes stream st.rand shapeKey)
    targetColors :=
      (List.range PARTICLE_COUNT).map (fun _ => (shapeColors shapeKey).getD ⟨1, 1, 1⟩)
    rand := if shapeKey = "scatter" then st.rand + 3 * PARTICLE_COUNT else st.rand }

/-- `setTargetShape` of the monolithic page component: identical rebuild, but
guarded by `if (currentShapeRef.current === shapeKey) return`. -/
def setTargetShape007 (shapes : String → Option (List (Vec3 ℚ))) (stream : ℕ → ℚ)
    (st : MorphState) (shapeKey : String) : MorphState :=
  if st.currentShape = shapeKey then st
  else updateTargetShape shapes stream st shapeKey

lemma getScatterCoordinates_length (count : ℕ) (stream : ℕ → ℚ) (k : ℕ) :
    (getScatterCoordinates count stream k).length = count := by
  simp [getScatterCoordinates]

lemma get?_range {m n : ℕ} (h : m < n) : (List.range n).get? m = some m := by
  rw [List.get?_eq_getElem?, List.getElem?_range h]

lemma buildTargets_length (nt : List (Vec3 ℚ)) :
    (buildTargets nt).length = PARTICLE_COUNT := by
  simp [buildTargets]

lemma buildTargets_get? (nt : List (Vec3 ℚ)) (i : ℕ) (hi : i < PARTICLE_COUNT) :
    (buildTargets nt).get? i = some (nt.get? (i % nt.length)) := by
  unfold buildTargets
  rw [List.get?_map, get?_range hi]
  rfl

lemma getScatterCoordinates_get?_zero (stream : ℕ → ℚ) (k : ℕ) :
    (getScatterCoordinates PARTICLE_COUNT stream k).get? 0 =
      some ⟨(stream k - 1 / 2) * SCATTER_RANGE,
        (stream (k + 1) - 1 / 2) * SCATTER_RANGE,
        (stream (k + 2) - 1 / 2) * SCATTER_RANGE⟩ := by
  unfold getScatterCoordinates
  rw [List.get?_map, get?_range (show 0 < PARTICLE_COUNT by decide)]
  rfl

lemma updateTargetShape_targetPositions
    (shapes : String → Option (List (Vec3 ℚ))) (stream : ℕ → ℚ)
    (st : MorphState) (shapeKey : String) :
    (updateTargetShape shapes stream st shapeKey).targetPositions =
      buildTargets (newTargetsOf shapes stream st.rand shapeKey) := by
  simp only [updateTargetShape]

lemma updateTargetShape_rand
    (shapes : String → Option (List (Vec3 ℚ))) (stream : ℕ → ℚ)
    (st : MorphState) (shapeKey : String) :
    (updateTargetShape shapes stream st shapeKey).rand =
      if shapeKey = "scatter" then st.rand + 3 * PARTICLE_COUNT else st.rand := by
  simp only [updateTargetShape]

lemma newTargetsOf_scatter (shapes : String → Option (List (Vec3 ℚ)))
    (stream : ℕ → ℚ) (k : ℕ) :
    newTargetsOf shapes stream k "scatter" =
      getScatterCoordinates PARTICLE_COUNT stream k := by
  unfold newTargetsOf
  rw [if_pos rfl]

lemma updateTargetShape_scatter_first_target
    (shapes : String → Option (List (Vec3 ℚ))) (stream : ℕ → ℚ) (st : MorphState) :
    (updateTargetShape shapes stream st "scatter").targetPositions.get? 0 =
      some (some ⟨(stream st.rand - 1 / 2) * SCATTER_RANGE,
        (stream (st.rand + 1) - 1 / 2) * SCATTER_RANGE,
        (stream (st.rand + 2) - 1 / 2) * SCATTER_RANGE⟩) ∧
    (updateTargetShape shapes stream st "scatter").rand = st.rand + 3 * PARTICLE_COUNT := by
  constructor
  · rw [updateTargetShape_targetPositions, buildTargets_get? _ 0 (by decide),
      newTargetsOf_scatter, getScatterCoordinates_length, Nat.zero_mod,
      getScatterCoordinates_get?_zero]
  · rw [updateTargetShape_rand, if_pos rfl]

/-- The identity stream: the n-th `Math.random()` draw is the rational n (an
arbitrary concrete choice exhibiting distinct consecutive draws). -/
def natStream : ℕ → ℚ := fun n => n

/-- A concrete shape store for the counterexamples: only a one-point sphere. -/
def shapesC3 : String → Option (List (Vec3 ℚ)) :=
  fun k => if k = "sphere" then some [⟨0, 0, 0⟩] else none

/-- C3 counterexample: calling the hook's `updateTargetShape` twice in a row
with `scatter` is not a no-op — the second call regenerates the scatter cloud
and the target-position array changes (already at particle 0). -/
theorem C3_counterexample :
    (updateTargetShape shapesC3 natStream
        (updateTargetShape shapesC3 natStream ⟨"sphere", [], [], 0⟩ "scatter")
        "scatter").targetPositions.get? 0 ≠
      (updateTargetShape shapesC3 natStream ⟨"sphere", [], [], 0⟩ "scatter").targetPositions.get? 0 := by
  have h1 := updateTargetShape_scatter_first_target shapesC3 natStream ⟨"sphere", [], [], 0⟩
  have h2 := updateTargetShape_scatter_first_target shapesC3 natStream
    (updateTargetShape shapesC3 natStream ⟨"sphere", [], [], 0⟩ "scatter")
  rw [h1.2] at h2
  rw [h2.1, h1.1]
  norm_num [natStream, SCATTER_RANGE, PARTICLE_COUNT, Vec3.mk.injEq]

/-- C3 (amended): only the page component's `setTargetShape` is idempotent —
its guard returns the state unchanged whenever the requested key equals the
active shape, so no target array is rebuilt and no scatter cloud regenerated.
The hook's `updateTargetShape` has no such guard (see the counterexample). -/
theorem C3_setTargetShape_idempotent
    (shapes : String → Option (List (Vec3 ℚ))) (stream : ℕ → ℚ)
    (st : MorphState) (shapeKey : String) (h : st.currentShape = shapeKey) :
    setTargetShape007 shapes stream st shapeKey = st := by
  unfold setTargetShape007
  rw [if_pos h]

/-- C3 witness: the amended theorem at a concrete state already targeting the
sphere. -/
theorem C3_witness :
    (⟨"sphere", [], [], 0⟩ : MorphState).currentShape = "sphere" ∧
    setTargetShape007 shapesC3 natStream ⟨"sphere", [], [], 0⟩ "sphere" =
      ⟨"sphere", [], [], 0⟩ :=
  ⟨rfl, C3_setTargetShape_idempotent shapesC3 natStream ⟨"sphere", [], [], 0⟩ "sphere" rfl⟩

lemma updateTargetShape_targetColors
    (shapes : String → Option (List (Vec3 ℚ))) (stream : ℕ → ℚ)
    (st : MorphState) (shapeKey : String) :
    (updateTargetShape shapes stream st shapeKey).targetColors =
      (List.range PARTICLE_COUNT).map (fun _ => (shapeColors shapeKey).getD ⟨1, 1, 1⟩) := by
  simp only [updateTargetShape]

lemma buildTargets_nil : buildTargets [] = List.replicate PARTICLE_COUNT none := by
  unfold buildTargets
  rw [show (fun i : ℕ => ([] : List (Vec3 ℚ)).get? (i % ([] : List (Vec3 ℚ)).length)) =
      fun _ : ℕ => (none : Option (Vec3 ℚ)) from funext fun i => List.get?_nil,
    List.map_const', List.length_range]

lemma newTargetsOf_of_absent (shapes : String → Option (List (Vec3 ℚ)))
    (stream : ℕ → ℚ) (k : ℕ) (shapeKey : String)
    (habs : shapes shapeKey = none) (hsc : shapeKey ≠ "scatter") :
    newTargetsOf shapes stream k shapeKey = (shapes "sphere").getD [] := by
  unfold newTargetsOf
  rw [if_neg hsc, habs]
  rfl

lemma newTargetsOf_of_present (shapes : String → Option (List (Vec3 ℚ)))
    (stream : ℕ → ℚ) (k : ℕ) (shapeKey : String) (pts : List (Vec3 ℚ))
    (hpts : shapes shapeKey = some pts) (hsc : shapeKey ≠ "scatter") :
    newTargetsOf shapes stream k shapeKey = pts := by
  unfold newTargetsOf
  rw [if_neg hsc, hpts]
  rfl

/-- A concrete shape store whose `hello` shape is present but empty (a text
rasterization that matched no pixels) next to a one-point sphere. -/
def shapesC4 : String → Option (List (Vec3 ℚ)) :=
  fun k => if k = "hello" then some [] else if k = "sphere" then some [⟨1, 2, 3⟩] else none

/-- C4 counterexample: selecting the present-but-empty `hello` shape does not
fall back to the sphere's points (`[]` is truthy, so `shapes[key] ||
shapes.sphere` keeps it): particle 0's target is `undefined` (the
`i % 0` indexing was evaluated on the empty list), not the sphere point. -/
theorem C4_counterexample :
    (updateTargetShape shapesC4 natStream ⟨"sphere", [], [], 0⟩ "hello").targetPositions.get? 0 =
      some none ∧
    (updateTargetShape shapesC4 natStream ⟨"sphere", [], [], 0⟩ "hello").targetPositions.get? 0 ≠
      some (some ⟨1, 2, 3⟩) := by
  have e : (updateTargetShape shapesC4 natStream
      ⟨"sphere", [], [], 0⟩ "hello").targetPositions.get? 0 = some none := by
    rw [updateTargetShape_targetPositions,
      newTargetsOf_of_present shapesC4 natStream _ "hello" [] (by decide) (by decide),
      buildTargets_nil, List.get?_eq_getElem?, List.getElem?_replicate,
      if_pos (show 0 < PARTICLE_COUNT by decide)]
  exact ⟨e, by rw [e]; decide⟩

/-- C4 (amended): the sphere fallback applies only when the shape key is
absent from the shapes record (`undefined`); then every particle's target is
drawn from the sphere's points by the modulo indexing.  When the key is
present with zero points there is no fallback: the `i mod 0` indexing is
evaluated on the empty list and every particle's target is `undefined`. -/
theorem C4_zero_point_shape
    (shapes : String → Option (List (Vec3 ℚ))) (stream : ℕ → ℚ)
    (st : MorphState) (shapeKey : String) (hsc : shapeKey ≠ "scatter") :
    (shapes shapeKey = none →
      ∀ i, i < PARTICLE_COUNT →
        (updateTargetShape shapes stream st shapeKey).targetPositions.get? i =
          some (((shapes "sphere").getD []).get?
            (i % ((shapes "sphere").getD []).length))) ∧
    (shapes shapeKey = some [] →
      (updateTargetShape shapes stream st shapeKey).targetPositions =
        List.replicate PARTICLE_COUNT none) := by
  constructor
  · intro habs i hi
    rw [updateTargetShape_targetPositions,
      newTargetsOf_of_absent shapes stream st.rand shapeKey habs hsc,
      buildTargets_get? _ i hi]
  · intro hempty
    rw [updateTargetShape_targetPositions,
      newTargetsOf_of_present shapes stream st.rand shapeKey [] hempty hsc,
      buildTargets_nil]

/-- C4 witness: the amended theorem at the concrete store `shapesC4`, on a
missing key (falls back to the one-point sphere) and on the empty `hello`
shape (all-`undefined` targets). -/
theorem C4_witness :
    ("missing" ≠ "scatter") ∧ (shapesC4 "missing" = none) ∧ (0 < PARTICLE_COUNT) ∧
    (updateTargetShape shapesC4 natStream ⟨"sphere", [], [], 0⟩ "missing").targetPositions.get? 0 =
      some (((shapesC4 "sphere").getD []).get? (0 % ((shapesC4 "sphere").getD []).length)) ∧
    ("hello" ≠ "scatter") ∧ (shapesC4 "hello" = some []) ∧
    (updateTargetShape shapesC4 natStream ⟨"sphere", [], [], 0⟩ "hello").targetPositions =
      List.replicate PARTICLE_COUNT none :=
  ⟨by decide, by decide, by decide,
    (C4_zero_point_shape shapesC4 natStream ⟨"sphere", [], [], 0⟩ "missing" (by decide)).1
      (by decide) 0 (by decide),
    by decide, by decide,
    (C4_zero_point_shape shapesC4 natStream ⟨"sphere", [], [], 0⟩ "hello" (by decide)).2
      (by decide)⟩

/-- C5: on a shape switch whose effective point set (`newTargets`) is
non-empty, both target arrays are rebuilt with length exactly
`PARTICLE_COUNT`, `targetPositions[i]` is `newTargets[i mod len]` (a present
point) for every particle index i, and `targetColors[i]` is the shape's
single color. -/
theorem C5_target_rebuild
    (shapes : String → Option (List (Vec3 ℚ))) (stream : ℕ → ℚ)
    (st : MorphState) (shapeKey : String)
    (hne : newTargetsOf shapes stream st.rand shapeKey ≠ []) :
    (updateTargetShape shapes stream st shapeKey).targetPositions.length = PARTICLE_COUNT ∧
    (updateTargetShape shapes stream st shapeKey).targetColors.length = PARTICLE_COUNT ∧
    ∀ i, i < PARTICLE_COUNT →
      (updateTargetShape shapes stream st shapeKey).targetPositions.get? i =
        some ((newTargetsOf shapes stream st.rand shapeKey).get?
          (i % (newTargetsOf shapes stream st.rand shapeKey).length)) ∧
      ((newTargetsOf shapes stream st.rand shapeKey).get?
          (i % (newTargetsOf shapes stream st.rand shapeKey).length)).isSome = true ∧
      (updateTargetShape shapes stream st shapeKey).targetColors.get? i =
        some ((shapeColors shapeKey).getD ⟨1, 1, 1⟩) := by
  refine ⟨?_, ?_, ?_⟩
  · rw [updateTargetShape_targetPositions, buildTargets_length]
  · rw [updateTargetShape_targetColors, List.length_map, List.length_range]
  · intro i hi
    refine ⟨?_, ?_, ?_⟩
    · rw [updateTargetShape_targetPositions, buildTargets_get? _ i hi]
    · have hlen : 0 < (newTargetsOf shapes stream st.rand shapeKey).length :=
        List.length_pos.mpr hne
      have hlt := Nat.mod_lt i hlen
      rw [List.get?_eq_getElem?, List.getElem?_eq_getElem hlt]
      rfl
    · rw [updateTargetShape_targetColors, List.get?_map, get?_range hi]
      rfl

/-- C5 witness: the theorem at the concrete one-point sphere store, particle
index 0. -/
theorem C5_witness :
    (newTargetsOf shapesC3 natStream (⟨"x", [], [], 0⟩ : MorphState).rand "sphere" ≠ []) ∧
    (0 < PARTICLE_COUNT) ∧
    (updateTargetShape shapesC3 natStream ⟨"x", [], [], 0⟩ "sphere").targetPositions.length =
      PARTICLE_COUNT ∧
    (updateTargetShape shapesC3 natStream ⟨"x", [], [], 0⟩ "sphere").targetPositions.get? 0 =
      some ((newTargetsOf shapesC3 natStream (⟨"x", [], [], 0⟩ : MorphState).rand "sphere").get?
        (0 % (newTargetsOf shapesC3 natStream (⟨"x", [], [], 0⟩ : MorphState).rand "sphere").length)) ∧
    (updateTargetShape shapesC3 natStream ⟨"x", [], [], 0⟩ "sphere").targetColors.get? 0 =
      some ((shapeColors "sphere").getD ⟨1, 1, 1⟩) :=
  ⟨by decide, by decide,
    (C5_target_rebuild shapesC3 natStream ⟨"x", [], [], 0⟩ "sphere" (by decide)).1,
    ((C5_target_rebuild shapesC3 natStream ⟨"x", [], [], 0⟩ "sphere" (by decide)).2.2
      0 (by decide)).1,
    ((C5_target_rebuild shapesC3 natStream ⟨"x", [], [], 0⟩ "sphere" (by decide)).2.2
      0 (by decide)).2.2⟩

/-! ## Interpolation utilities

`lerpPositions` / `lerpColors` from `utils/math/interpolation` (part of the
unnamed math module): in-place lerp of a flat `[x,y,z,...]` buffer toward an
array of target vectors/colors, iterating over `targets.length` triples.
The in-place mutation is modelled functionally with `List.set`, whose
out-of-range writes are no-ops exactly like writes past the end of a JS
`Float32Array`. -/

def lerpPositionsAux : List ℚ → List (Vec3 ℚ) → ℕ → ℚ → List ℚ
  | positions, [], _, _ => positions
  | positions, t :: rest, i, factor =>
    let idx := 3 * i
    let p0 := positions.set idx
      (positions.getD idx 0 + (t.x - positions.getD idx 0) * factor)
    let p1 := p0.set (idx + 1)
      (p0.getD (idx + 1) 0 + (t.y - p0.getD (idx + 1) 0) * factor)
    let p2 := p1.set (idx + 2)
      (p1.getD (idx + 2) 0 + (t.z - p1.getD (idx + 2) 0) * factor)
    lerpPositionsAux p2 rest (i + 1) factor

/-- `lerpPositions(positions, targets, factor)`:
`positions[idx] += (target.x - positions[idx]) * factor` (and y, z) for each
target index. -/
def lerpPositions (positions : List ℚ) (targets : List (Vec3 ℚ)) (factor : ℚ) : List ℚ :=
  lerpPositionsAux positions targets 0 factor

def lerpColorsAux : List ℚ → List Color → ℕ → ℚ → List ℚ
  | colors, [], _, _ => colors
  | colors, t :: rest, i, factor =>
    let idx := 3 * i
    let c0 := colors.set idx
      (colors.getD idx 0 + (t.r - colors.getD idx 0) * factor)
    let c1 := c0.set (idx + 1)
      (c0.getD (idx + 1) 0 + (t.g - c0.getD (idx + 1) 0) * factor)
    let c2 := c1.set (idx + 2)
      (c1.getD (idx + 2) 0 + (t.b - c1.getD (idx + 2) 0) * factor)
    lerpColorsAux c2 rest (i + 1) factor

/-- `lerpColors(colors, targets, factor)`: same loop over r, g, b channels. -/
def lerpColors (colors : List ℚ) (targets : List Color) (factor : ℚ) : List ℚ :=
  lerpColorsAux colors targets 0 factor

lemma get?_set_ne (l : List ℚ) (m n : ℕ) (a : ℚ) (h : m ≠ n) :
    (l.set m a).get? n = l.get? n := by
  rw [List.get?_eq_getElem?, List.get?_eq_getElem?, List.getElem?_set_ne h]

lemma get?_set_self (l : List ℚ) (n : ℕ) (a : ℚ) (h : n < l.length) :
    (l.set n a).get? n = some a := by
  rw [List.get?_eq_getElem?, List.getElem?_set_self]
  simp [h]

lemma getD_set_ne (l : List ℚ) (m n : ℕ) (a d : ℚ) (h : m ≠ n) :
    (l.set m a).getD n d = l.getD n d := by
  rw [List.getD_eq_getElem?_getD, List.getD_eq_getElem?_getD, List.getElem?_set_ne h]

lemma lerpPositionsAux_length (targets : List (Vec3 ℚ)) :
    ∀ (positions : List ℚ) (i : ℕ) (factor : ℚ),
      (lerpPositionsAux positions targets i factor).length = positions.length := by
  induction targets with
  | nil => intro positions i factor; rfl
  | cons t rest ih =>
    intro positions i factor
    show (lerpPositionsAux _ rest (i + 1) factor).length = _
    rw [ih]
    simp [List.length_set]

lemma lerpPositionsAux_get?_untouched (targets : List (Vec3 ℚ)) :
    ∀ (positions : List ℚ) (i : ℕ) (factor : ℚ) (j : ℕ),
      j < 3 * i ∨ 3 * (i + targets.length) ≤ j →
      (lerpPositionsAux positions targets i factor).get? j = positions.get? j := by
  induction targets with
  | nil => intro positions i factor j _; rfl
  | cons t rest ih =>
    intro positions i factor j hj
    have hj3 : j < 3 * i ∨ 3 * i + 3 ≤ j := by
      rcases hj with h | h
      · exact Or.inl h
      · right
        simp only [List.length_cons] at h
        omega
    have hne0 : 3 * i ≠ j := by omega
    have hne1 : 3 * i + 1 ≠ j := by omega
    have hne2 : 3 * i + 2 ≠ j := by omega
    show (lerpPositionsAux _ rest (i + 1) factor).get? j = _
    rw [ih _ (i + 1) factor j (by
      rcases hj with h | h
      · left; omega
      · right; simp only [List.length_cons] at h ⊢; omega)]
    rw [get?_set_ne _ _ _ _ hne2, get?_set_ne _ _ _ _ hne1, get?_set_ne _ _ _ _ hne0]

lemma lerpColorsAux_length (targets : List Color) :
    ∀ (colors : List ℚ) (i : ℕ) (factor : ℚ),
      (lerpColorsAux colors targets i factor).length = colors.length := by
  induction targets with
  | nil => intro colors i factor; rfl
  | cons t rest ih =>
    intro colors i factor
    show (lerpColorsAux _ rest (i + 1) factor).length = _
    rw [ih]
    simp [List.length_set]

lemma lerpColorsAux_get?_untouched (targets : List Color) :
    ∀ (colors : List ℚ) (i : ℕ) (factor : ℚ) (j : ℕ),
      j < 3 * i ∨ 3 * (i + targets.length) ≤ j →
      (lerpColorsAux colors targets i factor).get? j = colors.get? j := by
  induction targets with
  | nil => intro colors i factor j _; rfl
  | cons t rest ih =>
    intro colors i factor j hj
    have hne0 : 3 * i ≠ j := by
      rcases hj with h | h
      · omega
      · simp only [List.length_cons] at h; omega
    have hne1 : 3 * i + 1 ≠ j := by
      rcases hj with h | h
      · omega
      · simp only [List.length_cons] at h; omega
    have hne2 : 3 * i + 2 ≠ j := by
      rcases hj with h | h
      · omega
      · simp only [List.length_cons] at h; omega
    show (lerpColorsAux _ rest (i + 1) factor).get? j = _
    rw [ih _ (i + 1) factor j (by
      rcases hj with h | h
      · left; omega
      · right; simp only [List.length_cons] at h ⊢; omega)]
    rw [get?_set_ne _ _ _ _ hne2, get?_set_ne _ _ _ _ hne1, get?_set_ne _ _ _ _ hne0]

lemma lerpPositionsAux_get?_write (targets : List (Vec3 ℚ)) :
    ∀ (positions : List ℚ) (i : ℕ) (factor : ℚ) (j n : ℕ),
      j < targets.length → n = 3 * (i + j) →
      (n < positions.length →
        (lerpPositionsAux positions targets i factor).get? n =
          some (positions.getD n 0 +
            ((targets.getD j default).x - positions.getD n 0) * factor)) ∧
      (n + 1 < positions.length →
        (lerpPositionsAux positions targets i factor).get? (n + 1) =
          some (positions.getD (n + 1) 0 +
            ((targets.getD j default).y - positions.getD (n + 1) 0) * factor)) ∧
      (n + 2 < positions.length →
        (lerpPositionsAux positions targets i factor).get? (n + 2) =
          some (positions.getD (n + 2) 0 +
            ((targets.getD j default).z - positions.getD (n + 2) 0) * factor)) := by
  induction targets with
  | nil =>
    intro positions i factor j n hj _
    exact absurd hj (by simp)
  | cons t rest ih =>
    intro positions i factor j n hj hn
    cases j with
    | zero =>
      have hn0 : n = 3 * i := by omega
      subst hn0
      refine ⟨?_, ?_, ?_⟩
      · intro hlen
        show (lerpPositionsAux _ rest (i + 1) factor).get? _ = _
        rw [lerpPositionsAux_get?_untouched rest _ (i + 1) factor (3 * i)
            (Or.inl (by omega)),
          get?_set_ne _ _ _ _ (show 3 * i + 2 ≠ 3 * i by omega),
          get?_set_ne _ _ _ _ (show 3 * i + 1 ≠ 3 * i by omega),
          get?_set_self _ _ _ hlen]
        rfl
      · intro hlen
        show (lerpPositionsAux _ rest (i + 1) factor).get? _ = _
        rw [lerpPositionsAux_get?_untouched rest _ (i + 1) factor (3 * i + 1)
            (Or.inl (by omega)),
          get?_set_ne _ _ _ _ (show 3 * i + 2 ≠ 3 * i + 1 by omega),
          get?_set_self _ _ _ (by rw [List.length_set]; exact hlen),
          getD_set_ne _ _ _ _ _ (show 3 * i ≠ 3 * i + 1 by omega)]
        rfl
      · intro hlen
        show (lerpPositionsAux _ rest (i + 1) factor).get? _ = _
        rw [lerpPositionsAux_get?_untouched rest _ (i + 1) factor (3 * i + 2)
            (Or.inl (by omega)),
          get?_set_self _ _ _ (by rw [List.length_set, List.length_set]; exact hlen),
          getD_set_ne _ _ _ _ _ (show 3 * i + 1 ≠ 3 * i + 2 by omega),
          getD_set_ne _ _ _ _ _ (show 3 * i ≠ 3 * i + 2 by omega)]
        rfl
    | succ j' =>
      have hj' : j' < rest.length := by simp at hj; omega
      have hn' : n = 3 * ((i + 1) + j') := by omega
      have hge : 3 * i + 3 ≤ n := by omega
      refine ⟨?_, ?_, ?_⟩
      · intro hlen
        show (lerpPositionsAux _ rest (i + 1) factor).get? _ = _
        rw [(ih _ (i + 1) factor j' n hj' hn').1
            (by simpa [List.length_set] using hlen)]
        rw [getD_set_ne _ _ _ _ _ (show 3 * i + 2 ≠ n by omega),
          getD_set_ne _ _ _ _ _ (show 3 * i + 1 ≠ n by omega),
          getD_set_ne _ _ _ _ _ (show 3 * i ≠ n by omega)]
        rfl
      · intro hlen
        show (lerpPositionsAux _ rest (i + 1) factor).get? _ = _
        rw [(ih _ (i + 1) factor j' n hj' hn').2.1
            (by simpa [List.length_set] using hlen)]
        rw [getD_set_ne _ _ _ _ _ (show 3 * i + 2 ≠ n + 1 by omega),
          getD_set_ne _ _ _ _ _ (show 3 * i + 1 ≠ n + 1 by omega),
          getD_set_ne _ _ _ _ _ (show 3 * i ≠ n + 1 by omega)]
        rfl
      · intro hlen
        show (lerpPositionsAux _ rest (i + 1) factor).get? _ = _
        rw [(ih _ (i + 1) factor j' n hj' hn').2.2
            (by simpa [List.length_set] using hlen)]
        rw [getD_set_ne _ _ _ _ _ (show 3 * i + 2 ≠ n + 2 by omega),
          getD_set_ne _ _ _ _ _ (show 3 * i + 1 ≠ n + 2 by omega),
          getD_set_ne _ _ _ _ _ (show 3 * i ≠ n + 2 by omega)]
        rfl

lemma lerpColorsAux_get?_write (targets : List Color) :
    ∀ (colors : List ℚ) (i : ℕ) (factor : ℚ) (j n : ℕ),
      j < targets.length → n = 3 * (i + j) →
      (n < colors.length →
        (lerpColorsAux colors targets i factor).get? n =
          some (colors.getD n 0 +
            ((targets.getD j default).r - colors.getD n 0) * factor)) ∧
      (n + 1 < colors.length →
        (lerpColorsAux colors targets i factor).get? (n + 1) =
          some (colors.getD (n + 1) 0 +
            ((targets.getD j default).g - colors.getD (n + 1) 0) * factor)) ∧
      (n + 2 < colors.length →
        (lerpColorsAux colors targets i factor).get? (n + 2) =
          some (colors.getD (n + 2) 0 +
            ((targets.getD j default).b - colors.getD (n + 2) 0) * factor)) := by
  induction targets with
  | nil =>
    intro colors i factor j n hj _
    exact absurd hj (by simp)
  | cons t rest ih =>
    intro colors i factor j n hj hn
    cases j with
    | zero =>
      have hn0 : n = 3 * i := by omega
      subst hn0
      refine ⟨?_, ?_, ?_⟩
      · intro hlen
        show (lerpColorsAux _ rest (i + 1) factor).get? _ = _
        rw [lerpColorsAux_get?_untouched rest _ (i + 1) factor (3 * i)
            (Or.inl (by omega)),
          get?_set_ne _ _ _ _ (show 3 * i + 2 ≠ 3 * i by omega),
          get?_set_ne _ _ _ _ (show 3 * i + 1 ≠ 3 * i by omega),
          get?_set_self _ _ _ hlen]
        rfl
      · intro hlen
        show (lerpColorsAux _ rest (i + 1) factor).get? _ = _
        rw [lerpColorsAux_get?_untouched rest _ (i + 1) factor (3 * i + 1)
            (Or.inl (by omega)),
          get?_set_ne _ _ _ _ (show 3 * i + 2 ≠ 3 * i + 1 by omega),
          get?_set_self _ _ _ (by rw [List.length_set]; exact hlen),
          getD_set_ne _ _ _ _ _ (show 3 * i ≠ 3 * i + 1 by omega)]
        rfl
      · intro hlen
        show (lerpColorsAux _ rest (i + 1) factor).get? _ = _
        rw [lerpColorsAux_get?_untouched rest _ (i + 1) factor (3 * i + 2)
            (Or.inl (by omega)),
          get?_set_self _ _ _ (by rw [List.length_set, List.length_set]; exact hlen),
          getD_set_ne _ _ _ _ _ (show 3 * i + 1 ≠ 3 * i + 2 by omega),
          getD_set_ne _ _ _ _ _ (show 3 * i ≠ 3 * i + 2 by omega)]
        rfl
    | succ j' =>
      have hj' : j' < rest.length := by simp at hj; omega
      have hn' : n = 3 * ((i + 1) + j') := by omega
      have hge : 3 * i + 3 ≤ n := by omega
      refine ⟨?_, ?_, ?_⟩
      · intro hlen
        show (lerpColorsAux _ rest (i + 1) factor).get? _ = _
        rw [(ih _ (i + 1) factor j' n hj' hn').1
            (by simpa [List.length_set] using hlen)]
        rw [getD_set_ne _ _ _ _ _ (show 3 * i + 2 ≠ n by omega),
          getD_set_ne _ _ _ _ _ (show 3 * i + 1 ≠ n by omega),
          getD_set_ne _ _ _ _ _ (show 3 * i ≠ n by omega)]
        rfl
      · intro hlen
        show (lerpColorsAux _ rest (i + 1) factor).get? _ = _
        rw [(ih _ (i + 1) factor j' n hj' hn').2.1
            (by simpa [List.length_set] using hlen)]
        rw [getD_set_ne _ _ _ _ _ (show 3 * i + 2 ≠ n + 1 by omega),
          getD_set_ne _ _ _ _ _ (show 3 * i + 1 ≠ n + 1 by omega),
          getD_set_ne _ _ _ _ _ (show 3 * i ≠ n + 1 by omega)]
        rfl
      · intro hlen
        show (lerpColorsAux _ rest (i + 1) factor).get? _ = _
        rw [(ih _ (i + 1) factor j' n hj' hn').2.2
            (by simpa [List.length_set] using hlen)]
        rw [getD_set_ne _ _ _ _ _ (show 3 * i + 2 ≠ n + 2 by omega),
          getD_set_ne _ _ _ _ _ (show 3 * i + 1 ≠ n + 2 by omega),
          getD_set_ne _ _ _ _ _ (show 3 * i ≠ n + 2 by omega)]
        rfl

/-- C9: `lerpPositions` writes only the first `3 * targets.length` cells:
every cell at index `≥ 3 * targets.length` keeps its previous value, and with
no targets the buffer is returned untouched; `lerpColors` has the same frame
property. -/
theorem C9_lerp_frame :
    (∀ (positions : List ℚ) (targets : List (Vec3 ℚ)) (factor : ℚ) (j : ℕ),
      3 * targets.length ≤ j →
      (lerpPositions positions targets factor).get? j = positions.get? j) ∧
    (∀ (positions : List ℚ) (factor : ℚ), lerpPositions positions [] factor = positions) ∧
    (∀ (colors : List ℚ) (targets : List Color) (factor : ℚ) (j : ℕ),
      3 * targets.length ≤ j →
      (lerpColors colors targets factor).get? j = colors.get? j) ∧
    (∀ (colors : List ℚ) (factor : ℚ), lerpColors colors [] factor = colors) := by
  refine ⟨?_, ?_, ?_, ?_⟩
  · intro positions targets factor j hj
    exact lerpPositionsAux_get?_untouched targets positions 0 factor j (Or.inr (by omega))
  · intro positions factor; rfl
  · intro colors targets factor j hj
    exact lerpColorsAux_get?_untouched targets colors 0 factor j (Or.inr (by omega))
  · intro colors factor; rfl

/-- C9 witness: a two-target lerp over an eight-cell buffer leaves cell 6
(and the cells past the written prefix) unchanged. -/
theorem C9_witness :
    3 * ([(⟨10, 10, 10⟩ : Vec3 ℚ), ⟨20, 20, 20⟩]).length ≤ 6 ∧
    (lerpPositions [0, 0, 0, 1, 1, 1, 5, 7] [⟨10, 10, 10⟩, ⟨20, 20, 20⟩] (1/10)).get? 6 =
      ([0, 0, 0, 1, 1, 1, 5, 7] : List ℚ).get? 6 ∧
    3 * ([] : List Color).length ≤ 0 ∧
    (lerpColors [1, 0, 0] [] (1/20)).get? 0 = ([1, 0, 0] : List ℚ).get? 0 :=
  ⟨by decide,
    C9_lerp_frame.1 [0, 0, 0, 1, 1, 1, 5, 7] [⟨10, 10, 10⟩, ⟨20, 20, 20⟩] (1/10) 6 (by decide),
    by decide,
    C9_lerp_frame.2.2.1 [1, 0, 0] [] (1/20) 0 (by decide)⟩

/-- `ANIMATION_CONFIG.DEFAULT_LERP_FACTOR` (0.05). -/
def DEFAULT_LERP_FACTOR : ℚ := 1/20

/-- `ANIMATION_CONFIG.SCATTER_LERP_FACTOR` (0.1). -/
def SCATTER_LERP_FACTOR : ℚ := 1/10

/-- `ANIMATION_CONFIG.COLOR_LERP_FACTOR` (0.05). -/
def COLOR_LERP_FACTOR : ℚ := 1/20

/-- One animation-frame step (the body of `animate` in
`useParticleSystem.startAnimation`): bail out when no target is set, pick the
position lerp factor by the active shape, lerp positions, and lerp colors when
target colors exist. -/
def tick (currentShape : String) (positions colors : List ℚ)
    (targetPositions : List (Vec3 ℚ)) (targetColors : List Color) : List ℚ × List ℚ :=
  if targetPositions.length = 0 then (positions, colors)
  else
    (lerpPositions positions targetPositions
      (if currentShape = "scatter" then SCATTER_LERP_FACTOR else DEFAULT_LERP_FACTOR),
     if 0 < targetColors.length then lerpColors colors targetColors COLOR_LERP_FACTOR
     else colors)

/-- The per-coordinate recurrence the tick applies to one cell, iterated:
`current += (target - current) * factor` each frame. -/
def lerpIter (c t factor : ℚ) : ℕ → ℚ
  | 0 => c
  | n + 1 => lerpIter c t factor n + (t - lerpIter c t factor n) * factor

/-- C6: each tick applies `current += (target - current) * factor` per
coordinate, with factor 1/10 when the active shape is `scatter` and 1/20
otherwise, and 1/20 for color channels; and for any factor strictly between 0
and 1, `|target - current|` strictly decreases whenever it is nonzero, while
the iterate never exactly reaches the target in finitely many ticks (exact
rational arithmetic). -/
theorem C6_tick_contract :
    (∀ (shape : String) (positions colors : List ℚ)
      (tps : List (Vec3 ℚ)) (tcs : List Color) (i : ℕ),
      i < tps.length → 3 * i + 2 < positions.length →
      (tick shape positions colors tps tcs).1.get? (3 * i) =
        some (positions.getD (3 * i) 0 +
          ((tps.getD i default).x - positions.getD (3 * i) 0) *
            (if shape = "scatter" then 1/10 else 1/20)) ∧
      (tick shape positions colors tps tcs).1.get? (3 * i + 1) =
        some (positions.getD (3 * i + 1) 0 +
          ((tps.getD i default).y - positions.getD (3 * i + 1) 0) *
            (if shape = "scatter" then 1/10 else 1/20)) ∧
      (tick shape positions colors tps tcs).1.get? (3 * i + 2) =
        some (positions.getD (3 * i + 2) 0 +
          ((tps.getD i default).z - positions.getD (3 * i + 2) 0) *
            (if shape = "scatter" then 1/10 else 1/20))) ∧
    (∀ (shape : String) (positions colors : List ℚ)
      (tps : List (Vec3 ℚ)) (tcs : List Color) (i : ℕ),
      i < tcs.length → tps ≠ [] → 3 * i + 2 < colors.length →
      (tick shape positions colors tps tcs).2.get? (3 * i) =
        some (colors.getD (3 * i) 0 +
          ((tcs.getD i default).r - colors.getD (3 * i) 0) * (1/20)) ∧
      (tick shape positions colors tps tcs).2.get? (3 * i + 1) =
        some (colors.getD (3 * i + 1) 0 +
          ((tcs.getD i default).g - colors.getD (3 * i + 1) 0) * (1/20)) ∧
      (tick shape positions colors tps tcs).2.get? (3 * i + 2) =
        some (colors.getD (3 * i + 2) 0 +
          ((tcs.getD i default).b - colors.getD (3 * i + 2) 0) * (1/20))) ∧
    (∀ c t factor : ℚ, 0 < factor → factor < 1 → c ≠ t →
      |t - (c + (t - c) * factor)| < |t - c|) ∧
    (∀ c t factor : ℚ, 0 < factor → factor < 1 → c ≠ t →
      ∀ n, lerpIter c t factor n ≠ t) := by
  refine ⟨?_, ?_, ?_, ?_⟩
  · intro shape positions colors tps tcs i hi hlen
    have hw := lerpPositionsAux_get?_write tps positions 0
      (if shape = "scatter" then SCATTER_LERP_FACTOR else DEFAULT_LERP_FACTOR)
      i (3 * i) hi (by omega)
    have hfst : (tick shape positions colors tps tcs).1 =
        lerpPositions positions tps
          (if shape = "scatter" then SCATTER_LERP_FACTOR else DEFAULT_LERP_FACTOR) := by
      unfold tick
      rw [if_neg (by omega)]
    rw [hfst]
    unfold lerpPositions
    unfold SCATTER_LERP_FACTOR DEFAULT_LERP_FACTOR at hw ⊢
    exact ⟨hw.1 (by omega), hw.2.1 (by omega), hw.2.2 (by omega)⟩
  · intro shape positions colors tps tcs i hi hne hlen
    have hw := lerpColorsAux_get?_write tcs colors 0 COLOR_LERP_FACTOR i (3 * i) hi (by omega)
    have hsnd : (tick shape positions colors tps tcs).2 =
        lerpColors colors tcs COLOR_LERP_FACTOR := by
      unfold tick
      rw [if_neg (show ¬tps.length = 0 by simpa [List.length_eq_zero] using hne)]
      show (if 0 < tcs.length then lerpColors colors tcs COLOR_LERP_FACTOR else colors) = _
      rw [if_pos (show 0 < tcs.length by omega)]
    rw [hsnd]
    unfold lerpColors
    unfold COLOR_LERP_FACTOR at hw ⊢
    exact ⟨hw.1 (by omega), hw.2.1 (by omega), hw.2.2 (by omega)⟩
  · intro c t factor h0 h1 hct
    have hrw : t - (c + (t - c) * factor) = (t - c) * (1 - factor) := by ring
    rw [hrw, abs_mul, abs_of_pos (show (0:ℚ) < 1 - factor by linarith)]
    have hpos : 0 < |t - c| := abs_pos.mpr (sub_ne_zero.mpr (Ne.symm hct))
    nlinarith
  · intro c t factor h0 h1 hct
    have key : ∀ n, t - lerpIter c t factor n = (t - c) * (1 - factor) ^ n := by
      intro n
      induction n with
      | zero => simp [lerpIter]
      | succ n ihn =>
        show t - (lerpIter c t factor n + (t - lerpIter c t factor n) * factor) = _
        rw [pow_succ]
        linear_combination (1 - factor) * ihn
    intro n he
    have hzero : t - lerpIter c t factor n = 0 := by rw [he]; ring
    rw [key n] at hzero
    exact mul_ne_zero (sub_ne_zero.mpr (Ne.symm hct))
      (pow_ne_zero n (by intro hz; linarith [sub_eq_zero.mp hz])) hzero

/-- C6 witness: the tick contract at a one-particle system (position cell 0
moves a twentieth of the way to x-target 10; color cell 1 a twentieth toward
g-target 1), plus the spec's 0→10 example at factor 1/10: the gap strictly
shrinks and one tick lands at 1, never exactly at 10. -/
theorem C6_witness :
    (0 < ([(⟨10, 10, 10⟩ : Vec3 ℚ)]).length ∧ 3 * 0 + 2 < ([0, 0, 0] : List ℚ).length ∧
      (tick "sphere" [0, 0, 0] [] [⟨10, 10, 10⟩] []).1.get? (3 * 0) =
        some (([0, 0, 0] : List ℚ).getD (3 * 0) 0 +
          (([(⟨10, 10, 10⟩ : Vec3 ℚ)].getD 0 default).x -
            ([0, 0, 0] : List ℚ).getD (3 * 0) 0) *
          (if "sphere" = "scatter" then 1/10 else 1/20))) ∧
    (0 < ([(⟨0, 1, 0⟩ : Color)]).length ∧ ([(⟨0, 0, 0⟩ : Vec3 ℚ)] : List (Vec3 ℚ)) ≠ [] ∧
      3 * 0 + 2 < ([1, 0, 0] : List ℚ).length ∧
      (tick "x" [9, 9, 9] [1, 0, 0] [⟨0, 0, 0⟩] [⟨0, 1, 0⟩]).2.get? (3 * 0 + 1) =
        some (([1, 0, 0] : List ℚ).getD (3 * 0 + 1) 0 +
          (([(⟨0, 1, 0⟩ : Color)].getD 0 default).g -
            ([1, 0, 0] : List ℚ).getD (3 * 0 + 1) 0) * (1/20))) ∧
    ((0:ℚ) < 1/10 ∧ (1/10 : ℚ) < 1 ∧ (0:ℚ) ≠ 10 ∧
      |(10:ℚ) - (0 + (10 - 0) * (1/10))| < |(10:ℚ) - 0| ∧
      lerpIter 0 10 (1/10) 1 ≠ 10) :=
  ⟨⟨by decide, by decide,
    (C6_tick_contract.1 "sphere" [0, 0, 0] [] [⟨10, 10, 10⟩] [] 0 (by decide) (by decide)).1⟩,
   ⟨by decide, by decide, by decide,
    (C6_tick_contract.2.1 "x" [9, 9, 9] [1, 0, 0] [⟨0, 0, 0⟩] [⟨0, 1, 0⟩] 0
      (by decide) (by decide) (by decide)).2.1⟩,
   ⟨by norm_num, by norm_num, by norm_num,
    C6_tick_contract.2.2.1 0 10 (1/10) (by norm_num) (by norm_num) (by norm_num),
    C6_tick_contract.2.2.2 0 10 (1/10) (by norm_num) (by norm_num) (by norm_num) 1⟩⟩

/-! ## Throttle hook

`useThrottle.ts`: a held output value, a `lastRun` timestamp, and one pending
timeout.  Rendering a new input clears the previous timeout (dropping its
value) and schedules the new value at
`now + (delay - (now - lastRun))` = `lastRun + delay`, clamped to `now` when
the interval has already elapsed (JS clamps a negative timeout to 0); a
firing timeout adopts its value and resets `lastRun` only when
`now - lastRun ≥ delay`.  Time is in integer milliseconds. -/

structure ThrottleState (α : Type) where
  out : α
  lastRun : ℕ
  pending : Option (ℕ × α)
deriving DecidableEq

/-- The `setTimeout` call of the effect body: replace the pending timeout by
one firing at `max t (lastRun + delay)` carrying the latest value. -/
def throttleSchedule {α : Type} (delay : ℕ) (st : ThrottleState α) (t : ℕ) (v : α) :
    ThrottleState α :=
  { st with pending := some (max t (st.lastRun + delay), v) }

/-- The timeout handler at its fire time `f`: adopt the value and reset the
clock when `f - lastRun ≥ delay`, else just expire. -/
def throttleFire {α : Type} (delay : ℕ) (st : ThrottleState α) : ThrottleState α :=
  match st.pending with
  | none => st
  | some (f, v) =>
    if delay ≤ f - st.lastRun then ⟨v, f, none⟩ else ⟨st.out, st.lastRun, none⟩

/-- Let any pending timeout due by time `t` fire. -/
def throttleAdvance {α : Type} (delay : ℕ) (st : ThrottleState α) (t : ℕ) :
    ThrottleState α :=
  match st.pending with
  | none => st
  | some (f, _) => if f ≤ t then throttleFire delay st else st

/-- A new input value at time `t`: the effect cleanup clears the previous
timeout (unless it already fired) and schedules the new value. -/
def throttleInput {α : Type} (delay : ℕ) (st : ThrottleState α) (t : ℕ) (v : α) :
    ThrottleState α :=
  throttleSchedule delay (throttleAdvance delay st t) t v

/-- Mount at time `t`: `useState(value)` holds the first value, `lastRun`
starts at `Date.now()`, and the effect schedules the first timeout. -/
def throttleMount {α : Type} (delay : ℕ) (v : α) (t : ℕ) : ThrottleState α :=
  throttleSchedule delay ⟨v, t, none⟩ t v

/-- Feed a time-ordered list of (time, value) inputs. -/
def throttleRun {α : Type} (delay : ℕ) (st : ThrottleState α)
    (events : List (ℕ × α)) : ThrottleState α :=
  events.foldl (fun s e => throttleInput delay s e.1 e.2) st

/-- The hook's return value as observed at time `t`. -/
def throttleOutput {α : Type} (delay : ℕ) (st : ThrottleState α) (t : ℕ) : α :=
  (throttleAdvance delay st t).out

/-- C7: the gate holds the previously emitted value — scheduling a new input
never changes the output or the clock, every scheduled adoption time is at
least `lastRun + delay`, and the pending slot carries only the latest input
(earlier unemitted inputs are dropped, never buffered); a due fire adopts its
value and resets the clock to the fire time; and in the concrete A,B,A at
t = 0, 10, 50 ms scenario with a 100 ms interval the output is A (= 0) at
every query time, B (= 1) never being emitted. -/
theorem C7_throttle_gate :
    (∀ (st : ThrottleState ℕ) (delay t v : ℕ),
      (throttleSchedule delay st t v).out = st.out ∧
      (throttleSchedule delay st t v).lastRun = st.lastRun ∧
      ∀ f w, (throttleSchedule delay st t v).pending = some (f, w) →
        st.lastRun + delay ≤ f ∧ w = v) ∧
    (∀ (st : ThrottleState ℕ) (delay f v : ℕ),
      st.pending = some (f, v) → delay ≤ f - st.lastRun →
      throttleFire delay st = ⟨v, f, none⟩) ∧
    (∀ T : ℕ,
      throttleOutput 100 (throttleRun 100 (throttleMount 100 0 0) [(10, 1), (50, 0)]) T = 0) := by
  refine ⟨?_, ?_, ?_⟩
  · intro st delay t v
    refine ⟨rfl, rfl, ?_⟩
    intro f w hp
    have hp' : (max t (st.lastRun + delay), v) = (f, w) := Option.some.inj hp
    rw [Prod.mk.injEq] at hp'
    exact ⟨hp'.1 ▸ le_max_right t (st.lastRun + delay), hp'.2.symm⟩
  · intro st delay f v hp hdue
    unfold throttleFire
    rw [hp]
    simp only [if_pos hdue]
  · intro T
    have hrun : throttleRun 100 (throttleMount 100 0 0) [(10, 1), (50, 0)] =
        ⟨0, 0, some (100, 0)⟩ := by decide
    rw [throttleOutput, hrun]
    by_cases h : 100 ≤ T
    · simp [throttleAdvance, throttleFire, h]
    · simp [throttleAdvance, throttleFire, h]

/-- C7 witness: the hold/adopt parts at concrete states — scheduling value 2
at time 3 over a clock of 0 fires no earlier than 100 and keeps the held
output; a due fire at 100 adopts its value 7 and resets the clock. -/
theorem C7_witness :
    ((throttleSchedule 100 ⟨5, 0, some (7, 9)⟩ 3 2).pending = some (100, 2) ∧
      (⟨5, 0, some (7, 9)⟩ : ThrottleState ℕ).lastRun + 100 ≤ 100 ∧ (2 : ℕ) = 2) ∧
    ((⟨5, 0, some (100, 7)⟩ : ThrottleState ℕ).pending = some (100, 7) ∧
      100 ≤ 100 - (⟨5, 0, some (100, 7)⟩ : ThrottleState ℕ).lastRun ∧
      throttleFire 100 ⟨5, 0, some (100, 7)⟩ = ⟨7, 100, none⟩) ∧
    throttleOutput 100 (throttleRun 100 (throttleMount 100 0 0) [(10, 1), (50, 0)]) 60 = 0 :=
  ⟨⟨by decide,
    (C7_throttle_gate.1 ⟨5, 0, some (7, 9)⟩ 100 3 2).2.2 100 2 (by decide)⟩,
   ⟨by decide, by decide,
    C7_throttle_gate.2.1 ⟨5, 0, some (100, 7)⟩ 100 100 7 (by decide) (by decide)⟩,
   C7_throttle_gate.2.2 60⟩

/-! ## Sphere generator

`getSphereCoordinates` from `utils/geometry/shapeGenerators.ts`, over the
reals (`Math.acos` = `Real.arccos`, etc.). -/

noncomputable def spherePhi (count i : ℕ) : ℝ := Real.arccos (-1 + 2 * i / count)

noncomputable def sphereTheta (count i : ℕ) : ℝ :=
  Real.sqrt (count * Real.pi) * spherePhi count i

/-- The point pushed for index `i`: the spherical-to-Cartesian conversion of
the golden-spiral angles. -/
noncomputable def sphereVec (count : ℕ) (radius : ℝ) (i : ℕ) : Vec3 ℝ :=
  ⟨radius * Real.cos (sphereTheta count i) * Real.sin (spherePhi count i),
   radius * Real.sin (sphereTheta count i) * Real.sin (spherePhi count i),
   radius * Real.cos (spherePhi count i)⟩

/-- `getSphereCoordinates(count, radius)`: the loop over `i in [0, count)`. -/
noncomputable def getSphereCoordinates (count : ℕ) (radius : ℝ) : List (Vec3 ℝ) :=
  (List.range count).map (sphereVec count radius)

/-- C8: the sphere generator at count 1000, radius 30 produces exactly 1000
points, each at Euclidean distance exactly 30 from the origin (real
arithmetic). -/
theorem C8_sphere_distance :
    (getSphereCoordinates 1000 30).length = 1000 ∧
    ∀ p ∈ getSphereCoordinates 1000 30,
      Real.sqrt (p.x ^ 2 + p.y ^ 2 + p.z ^ 2) = 30 := by
  constructor
  · simp [getSphereCoordinates]
  · intro p hp
    simp only [getSphereCoordinates, List.mem_map, List.mem_range] at hp
    obtain ⟨i, hi, rfl⟩ := hp
    have h1 := Real.sin_sq_add_cos_sq (sphereTheta 1000 i)
    have h2 := Real.sin_sq_add_cos_sq (spherePhi 1000 i)
    have hsum : (sphereVec 1000 30 i).x ^ 2 + (sphereVec 1000 30 i).y ^ 2 +
        (sphereVec 1000 30 i).z ^ 2 = 900 := by
      simp only [sphereVec]
      linear_combination (900 * Real.sin (spherePhi 1000 i) ^ 2) * h1 + 900 * h2
    rw [hsum, show (900:ℝ) = 30 ^ 2 by norm_num,
      Real.sqrt_sq (by norm_num : (0:ℝ) ≤ 30)]

/-- C8 witness: the theorem at the first generated point. -/
theorem C8_witness :
    sphereVec 1000 30 0 ∈ getSphereCoordinates 1000 30 ∧
    Real.sqrt ((sphereVec 1000 30 0).x ^ 2 + (sphereVec 1000 30 0).y ^ 2 +
      (sphereVec 1000 30 0).z ^ 2) = 30 := by
  have hmem : sphereVec 1000 30 0 ∈ getSphereCoordinates 1000 30 := by
    unfold getSphereCoordinates
    exact List.mem_map.mpr ⟨0, List.mem_range.mpr (by norm_num), rfl⟩
  exact ⟨hmem, C8_sphere_distance.2 _ hmem⟩
